import Mathlib

/-!
Verification development for the evaluation-analysis notebook
(src/eval-report.ipynb).  The notebook loads per-algorithm recommendation
and prediction tables, computes top-N metrics against held-out ground
truth, and runs a Friedman omnibus test followed by pairwise Wilcoxon
signed-rank tests with a Bonferroni adjustment.

The embedding below models the notebook cells as pure Lean functions.
External library routines (scipy.stats.friedmanchisquare, scipy.stats.wilcoxon,
lenskit metric functions, lenskit.metrics.predict.rmse) are treated as
opaque collaborators and passed in as function parameters; everything the
notebook itself computes (grouping, pair enumeration, thresholding,
decision strings, table shaping) is modelled directly from the source.
Rationals stand in for Python floats; 0.05 denotes the exact rational 1/20,
matching the decimal literal in the source.
-/

set_option autoImplicit false

namespace EvalReport

/-- Record returned by the notebook function wilcox_bonf: a pandas Series
with fields Pair, Statistics, p_value, Decision. -/
structure WBResult where
  Pair : String × String
  Statistics : ℚ
  p_value : ℚ
  Decision : String
deriving DecidableEq, Repr

/-- The decision string the notebook assigns when it fails to reject H0. -/
def decisionSame : String := "Metric is the same (fail to reject H0)"

/-- The decision string the notebook assigns when it rejects H0. -/
def decisionDifferent : String := "Metric is different (reject H0)"

/-- itertools.combinations restricted to pairs, in Python enumeration
order: all pairs with the first element, then pairs from the tail. -/
def pairCombinations {α : Type} : List α → List (α × α)
  | [] => []
  | x :: xs => xs.map (fun y => (x, y)) ++ pairCombinations xs

/-- The list n_compare defined in the precision post-hoc cell:
list(combinations(list(range(4)), 2)). -/
def n_compare_precision : List (ℕ × ℕ) := pairCombinations (List.range 4)

/-- The list n_compare redefined in the ndcg post-hoc cell, textually
identical to the precision one. -/
def n_compare_ndcg : List (ℕ × ℕ) := pairCombinations (List.range 4)

/-- The list n_compare redefined in the recip_rank post-hoc cell, textually
identical to the precision one. -/
def n_compare_recip_rank : List (ℕ × ℕ) := pairCombinations (List.range 4)

/-- wilcox_bonf as defined in the precision section.  The scipy routine
wilcoxon is external and passed as the parameter wilcoxon; it returns the
pair (statistic, p-value).  alpha is 0.05, the adjusted threshold divides
alpha by len(n_compare), and the decision is "same" when p > new_alpha,
otherwise "different". -/
def wilcox_bonf_precision (wilcoxon : List ℚ → List ℚ → ℚ × ℚ)
    (data1 data2 : List ℚ) (alg_pair : String × String) : WBResult :=
  let alpha : ℚ := 0.05
  let sp := wilcoxon data1 data2
  let new_alpha := alpha / (n_compare_precision.length : ℚ)
  if sp.2 > new_alpha then
    { Pair := alg_pair, Statistics := sp.1, p_value := sp.2, Decision := decisionSame }
  else
    { Pair := alg_pair, Statistics := sp.1, p_value := sp.2, Decision := decisionDifferent }

/-- wilcox_bonf as redefined in the ndcg section (textually identical body,
referring to that section's n_compare). -/
def wilcox_bonf_ndcg (wilcoxon : List ℚ → List ℚ → ℚ × ℚ)
    (data1 data2 : List ℚ) (alg_pair : String × String) : WBResult :=
  let alpha : ℚ := 0.05
  let sp := wilcoxon data1 data2
  let new_alpha := alpha / (n_compare_ndcg.length : ℚ)
  if sp.2 > new_alpha then
    { Pair := alg_pair, Statistics := sp.1, p_value := sp.2, Decision := decisionSame }
  else
    { Pair := alg_pair, Statistics := sp.1, p_value := sp.2, Decision := decisionDifferent }

/-- wilcox_bonf as redefined in the recip_rank section (textually identical
body, referring to that section's n_compare). -/
def wilcox_bonf_recip_rank (wilcoxon : List ℚ → List ℚ → ℚ × ℚ)
    (data1 data2 : List ℚ) (alg_pair : String × String) : WBResult :=
  let alpha : ℚ := 0.05
  let sp := wilcoxon data1 data2
  let new_alpha := alpha / (n_compare_recip_rank.length : ℚ)
  if sp.2 > new_alpha then
    { Pair := alg_pair, Statistics := sp.1, p_value := sp.2, Decision := decisionSame }
  else
    { Pair := alg_pair, Statistics := sp.1, p_value := sp.2, Decision := decisionDifferent }

/-- A row of the filled metric-results table (after results.fillna(0)):
keyed by algorithm and user, with the three metric columns and the two
bookkeeping columns, all plain rationals. -/
structure MetricRow where
  algorithm : String
  user : String
  nrecs : ℚ
  ntruth : ℚ
  precision : ℚ
  recip_rank : ℚ
  ndcg : ℚ
deriving DecidableEq, Repr

/-- Lexicographic comparison of character lists by code point, the order
Python uses on strings. -/
def charListLt : List Char → List Char → Bool
  | [], [] => false
  | [], _ :: _ => true
  | _ :: _, [] => false
  | c :: cs, d :: ds =>
    if c.toNat < d.toNat then true
    else if d.toNat < c.toNat then false
    else charListLt cs ds

/-- Lexicographic string comparison by code point. -/
def strLt (s t : String) : Bool := charListLt s.data t.data

/-- Insertion into a strictly sorted duplicate-free list of strings, used to
model the sorted group keys produced by pandas groupby. -/
def insertKey (s : String) : List String → List String
  | [] => [s]
  | t :: ts =>
    if s = t then t :: ts
    else if strLt s t then s :: t :: ts
    else t :: insertKey s ts

/-- Sorted duplicate-free list of the values in l, modelling the sorted key
order of pandas groupby. -/
def sortedKeys (l : List String) : List String :=
  l.foldr insertKey []

/-- alg_names as built by the Friedman cells: the group keys of
results.reset_index().groupby("algorithm"), in sorted order. -/
def algNames (rows : List MetricRow) : List String :=
  sortedKeys (rows.map (fun r => r.algorithm))

/-- The score vector of one groupby group: the chosen metric column of the
rows whose algorithm equals the group key, in row order. -/
def groupVals (rows : List MetricRow) (col : MetricRow → ℚ) (a : String) : List ℚ :=
  (rows.filter (fun r => r.algorithm == a)).map col

/-- alg_vals as built by the Friedman cells: for each group key in order,
the chosen metric column of that group's rows, in row order. -/
def algVals (rows : List MetricRow) (col : MetricRow → ℚ) : List (List ℚ) :=
  (algNames rows).map (groupVals rows col)

/-- Python exceptions the significance cells can raise in the embedding. -/
inductive PyError where
  | indexError
deriving DecidableEq, Repr

/-- The omnibus call stat, p = friedmanchisquare(alg_vals[0], alg_vals[1],
alg_vals[2], alg_vals[3]): it indexes exactly the first four per-algorithm
vectors and raises IndexError when there are fewer than four.  The scipy
routine itself is the external parameter friedmanchisquare. -/
def friedmanCall (friedmanchisquare : List ℚ → List ℚ → List ℚ → List ℚ → ℚ × ℚ)
    (vals : List (List ℚ)) : Except PyError (ℚ × ℚ) :=
  match vals with
  | a :: b :: c :: d :: _ => .ok (friedmanchisquare a b c d)
  | _ => .error .indexError

/-- The body of the post-hoc for-loop, iterated over the remaining index
pairs: for each idx, apply wilcox_bonf to alg_vals[idx[0]], alg_vals[idx[1]]
with the pair (alg_names[idx[0]], alg_names[idx[1]]); list indexing raises
IndexError when out of range.  Results are collected in loop order. -/
def posthocFor (wilcoxon : List ℚ → List ℚ → ℚ × ℚ)
    (names : List String) (vals : List (List ℚ)) :
    List (ℕ × ℕ) → Except PyError (List WBResult)
  | [] => Except.ok []
  | idx :: rest =>
    match vals[idx.1]?, vals[idx.2]?, names[idx.1]?, names[idx.2]? with
    | some d1, some d2, some n1, some n2 =>
      match posthocFor wilcoxon names vals rest with
      | Except.ok l => Except.ok (wilcox_bonf_precision wilcoxon d1 d2 (n1, n2) :: l)
      | Except.error e => Except.error e
    | _, _, _, _ => Except.error PyError.indexError

/-- The post-hoc loop of the precision section: for idx in n_compare, run
wilcox_bonf on the indexed score vectors and names. -/
def posthocLoop (wilcoxon : List ℚ → List ℚ → ℚ × ℚ)
    (names : List String) (vals : List (List ℚ)) : Except PyError (List WBResult) :=
  posthocFor wilcoxon names vals n_compare_precision

/-- One metric section of the notebook (the Friedman cell followed by the
post-hoc cell), applied to the filled results table and one metric column.
The first component is the omnibus outcome and the second the post-hoc
outcome; in the source the post-hoc cell runs unconditionally, so both
components are always computed, whatever the omnibus p-value is. -/
def metricSection (friedmanchisquare : List ℚ → List ℚ → List ℚ → List ℚ → ℚ × ℚ)
    (wilcoxon : List ℚ → List ℚ → ℚ × ℚ)
    (rows : List MetricRow) (col : MetricRow → ℚ) :
    Except PyError (ℚ × ℚ) × Except PyError (List WBResult) :=
  let names := algNames rows
  let vals := algVals rows col
  (friedmanCall friedmanchisquare vals, posthocLoop wilcoxon names vals)

/-- A concrete filled results table with four algorithms (the situation the
notebook hard-codes) and one user; metric values are small integers so that
every list computation reduces in the kernel. -/
def rows4 : List MetricRow :=
  [ { algorithm := "als", user := "u1", nrecs := 10, ntruth := 2,
      precision := 1, recip_rank := 1, ndcg := 1 },
    { algorithm := "iknn", user := "u1", nrecs := 10, ntruth := 2,
      precision := 0, recip_rank := 0, ndcg := 0 },
    { algorithm := "popular", user := "u1", nrecs := 10, ntruth := 2,
      precision := 1, recip_rank := 1, ndcg := 1 },
    { algorithm := "uknn", user := "u1", nrecs := 10, ntruth := 2,
      precision := 0, recip_rank := 1, ndcg := 0 } ]

/-- A concrete filled results table with five algorithms. -/
def rows5 : List MetricRow :=
  rows4 ++
    [ { algorithm := "vknn", user := "u1", nrecs := 10, ntruth := 2,
        precision := 1, recip_rank := 0, ndcg := 1 } ]

/-- A concrete filled results table with three algorithms. -/
def rows3 : List MetricRow :=
  [ { algorithm := "als", user := "u1", nrecs := 10, ntruth := 2,
      precision := 1, recip_rank := 1, ndcg := 1 },
    { algorithm := "iknn", user := "u1", nrecs := 10, ntruth := 2,
      precision := 0, recip_rank := 0, ndcg := 0 },
    { algorithm := "popular", user := "u1", nrecs := 10, ntruth := 2,
      precision := 1, recip_rank := 1, ndcg := 1 } ]

/-- A concrete filled results table with a single algorithm. -/
def rows1 : List MetricRow :=
  [ { algorithm := "als", user := "u1", nrecs := 10, ntruth := 2,
      precision := 1, recip_rank := 1, ndcg := 1 } ]

/-- A stand-in for scipy friedmanchisquare that reports statistic 3 and
p-value 1/2 (not significant at the 0.05 level). -/
def frOracleHalf : List ℚ → List ℚ → List ℚ → List ℚ → ℚ × ℚ :=
  fun _ _ _ _ => (3, 1/2)

/-- A stand-in for scipy wilcoxon that reports statistic 2 and p-value 1/2. -/
def wOracleHalf : List ℚ → List ℚ → ℚ × ℚ :=
  fun _ _ => (2, 1/2)

/-- One parsed row of a recs-* file.  CSV parsing itself is external
(pandas read_csv); a file is modelled as its parsed table.  read_csv does
not validate which columns are present, so the row carries whatever the
file held; the fields here are the ones the notebook later uses. -/
structure CsvRow where
  user : String
  item : String
  score : ℚ
deriving DecidableEq, Repr

/-- One run output directory: its name and the parsed contents of the files
in it matching the recs-* pattern, in glob order. -/
structure OutDirectory where
  name : String
  recFiles : List (List CsvRow)
deriving DecidableEq, Repr

/-- One row of the concatenated recommendation table: a file row tagged
with the dataset and algorithm parsed from the directory name. -/
structure RecRow where
  user : String
  item : String
  score : ℚ
  dataset : String
  algorithm : String
deriving DecidableEq, Repr

/-- The exception pandas concat raises on an empty list of tables, the only
load-time failure the notebook can produce for a fully parsed filesystem. -/
inductive LoadError where
  | noObjectsToConcatenate
deriving DecidableEq, Repr

/-- Whether the first character list begins with the second. -/
def charListBegins : List Char → List Char → Bool
  | _, [] => true
  | [], _ :: _ => false
  | c :: cs, d :: ds => if c = d then charListBegins cs ds else false

/-- Whether the string s begins with the string p (the glob dataset-*). -/
def strBeginsWith (s p : String) : Bool := charListBegins s.data p.data

/-- Split a character list on a separator character, Python str.split
semantics: splitting the empty string gives one empty part. -/
def splitOnChar (sep : Char) : List Char → List (List Char)
  | [] => [[]]
  | c :: cs =>
    let rest := splitOnChar sep cs
    if c = sep then [] :: rest
    else
      match rest with
      | [] => [[c]]
      | w :: ws => (c :: w) :: ws

/-- fld.name.split("-")[i] for the directory name, as used to recover the
dataset (i = 0) and algorithm (i = 1) labels; matched directory names
always contain a dash, so both indices exist. -/
def nameSplit (name : String) (i : ℕ) : String :=
  ((splitOnChar ('-') name.data).map (fun l => String.mk l)).getD i ("")

/-- Directory discovery: output_root.glob of dataset-*. -/
def matchedDirs (dataset : String) (output_root : List OutDirectory) : List OutDirectory :=
  output_root.filter (fun fld => strBeginsWith fld.name (dataset ++ ("-")))

/-- The list of per-file tagged tables built by the recs loading loop: for
each matched directory, every recs-* file parsed and its rows tagged with
the dataset and algorithm parsed from the directory name. -/
def recTables (dataset : String) (output_root : List OutDirectory) :
    List (List RecRow) :=
  (matchedDirs dataset output_root).flatMap (fun fld =>
    fld.recFiles.map (fun file =>
      file.map (fun r =>
        { user := r.user, item := r.item, score := r.score,
          dataset := nameSplit fld.name 0, algorithm := nameSplit fld.name 1 })))

/-- The recs loading loop followed by pd.concat: concatenating an empty
list of tables raises ValueError, which is the only load-time failure for a
fully parsed filesystem. -/
def loadRecs (dataset : String) (output_root : List OutDirectory) :
    Except LoadError (List RecRow) :=
  if (recTables dataset output_root).isEmpty then
    Except.error LoadError.noObjectsToConcatenate
  else Except.ok (recTables dataset output_root).flatten

/-- A matched directory holding one parsed recs file. -/
def dirFull : OutDirectory :=
  { name := "ml100k-als", recFiles := [[{ user := "u1", item := "i1", score := 1 }]] }

/-- A matched directory holding no file matching the recs pattern. -/
def dirEmpty : OutDirectory :=
  { name := "ml100k-uknn", recFiles := [] }

/-- An output root where one matched directory has a recs file and another
matched directory has none. -/
def rootSkip : List OutDirectory := [dirFull, dirEmpty]

/-- One row of the concatenated prediction table (pred-* files carry both
the predicted and the original rating), tagged with dataset/algorithm. -/
structure PredRow where
  user : String
  item : String
  prediction : ℚ
  rating : ℚ
  dataset : String
  algorithm : String
deriving DecidableEq, Repr

/-- One row of the ground-truth table read from the test split files. -/
structure TruthRow where
  user : String
  item : String
  rating : ℚ
deriving DecidableEq, Repr

/-- Lexicographic order on (algorithm, user) keys, the sort order of the
pandas groupby on two columns. -/
def pairLt (p q : String × String) : Bool :=
  strLt p.1 q.1 || (p.1 == q.1 && strLt p.2 q.2)

/-- Insertion into a strictly sorted duplicate-free list of pair keys. -/
def insertPairKey (p : String × String) :
    List (String × String) → List (String × String)
  | [] => [p]
  | q :: qs =>
    if p = q then q :: qs
    else if pairLt p q then p :: q :: qs
    else q :: insertPairKey p qs

/-- Sorted duplicate-free list of (algorithm, user) keys, modelling the
group keys of preds.groupby(algorithm, user). -/
def sortedPairKeys (l : List (String × String)) : List (String × String) :=
  l.foldr insertPairKey []

/-- The user_rmse cell: group the prediction table by (algorithm, user) and
apply the external lenskit rmse routine to each group's prediction column
and rating column — both read from the prediction table itself. -/
def user_rmse (rmse : List ℚ → List ℚ → ℚ) (preds : List PredRow) :
    List ((String × String) × ℚ) :=
  (sortedPairKeys (preds.map (fun p => (p.algorithm, p.user)))).map (fun k =>
    let df := preds.filter (fun p => p.algorithm == k.1 && p.user == k.2)
    (k, rmse (df.map (fun p => p.prediction)) (df.map (fun p => p.rating))))

/-- Modelled from the spec: the held-out ground-truth rating for a given
user and item, looked up in the ground-truth table. -/
def truthRating (test : List TruthRow) (user item : String) : Option ℚ :=
  (test.find? (fun t => t.user == user && t.item == item)).map (fun t => t.rating)

/-- Modelled from the spec: "per-user RMSE by algorithm computed from
PredictionRecord joined against GroundTruthRecord" — the prediction table
inner-joined with the ground-truth table on (user, item), so that each
prediction is paired with the held-out ground-truth rating. -/
def joinPreds (preds : List PredRow) (test : List TruthRow) : List PredRow :=
  preds.filterMap (fun p =>
    (truthRating test p.user p.item).map (fun r => { p with rating := r }))

/-- Modelled from the spec: the per-user RMSE computation the spec
describes, i.e. the group-and-apply of user_rmse but over the join with the
ground-truth table. -/
def user_rmse_spec (rmse : List ℚ → List ℚ → ℚ) (preds : List PredRow)
    (test : List TruthRow) : List ((String × String) × ℚ) :=
  user_rmse rmse (joinPreds preds test)

/-- A concrete squared-error aggregate standing in for the external rmse
routine in witnesses and counterexamples. -/
def sumSqErr : List ℚ → List ℚ → ℚ :=
  fun ps rs => ((ps.zip rs).map (fun q => (q.1 - q.2)^2)).sum

/-- A prediction table whose stored rating (3) differs from the held-out
ground-truth rating (5) for the same user and item. -/
def predsBad : List PredRow :=
  [ { user := "u1", item := "i1", prediction := 3, rating := 3,
      dataset := "ml100k", algorithm := "als" } ]

/-- The ground-truth table for the mismatching example. -/
def truthBad : List TruthRow :=
  [ { user := "u1", item := "i1", rating := 5 } ]

/-- A prediction table whose stored rating agrees with the ground truth. -/
def predsGood : List PredRow :=
  [ { user := "u1", item := "i1", prediction := 4, rating := 5,
      dataset := "ml100k", algorithm := "als" } ]

/-- The ground-truth table for the agreeing example. -/
def truthGood : List TruthRow :=
  [ { user := "u1", item := "i1", rating := 5 } ]

/-- The metric values lenskit computes for one recommendation list that is
present in the recommendation table; the metric functions are external, so
a row's values are abstracted by an oracle producing this record. -/
structure MetricVals where
  nrecs : ℚ
  ntruth : ℚ
  precision : ℚ
  recip_rank : ℚ
  ndcg : ℚ
deriving DecidableEq, Repr

/-- One row of the raw results table returned by rla.compute before
fillna: metric and bookkeeping columns may be missing. -/
structure RawMetricRow where
  algorithm : String
  user : String
  nrecs : Option ℚ
  ntruth : Option ℚ
  precision : Option ℚ
  recip_rank : Option ℚ
  ndcg : Option ℚ
deriving DecidableEq, Repr

/-- The distinct (algorithm, user) keys of the recommendation lists. -/
def recListKeys (recs : List RecRow) : List (String × String) :=
  (recs.map (fun r => (r.algorithm, r.user))).dedup

/-- The distinct algorithms appearing in the recommendation table. -/
def algorithmsOf (recs : List RecRow) : List String :=
  (recs.map (fun r => r.algorithm)).dedup

/-- The distinct users appearing in the ground-truth table. -/
def truthUsers (test : List TruthRow) : List String :=
  (test.map (fun t => t.user)).dedup

/-- All (algorithm, user) pairs of an algorithm present in the
recommendations with a user present in the ground truth. -/
def allPairs (recs : List RecRow) (test : List TruthRow) : List (String × String) :=
  (algorithmsOf recs) ×ˢ (truthUsers test)

/-- The keys of the rows of the results table with include_missing=True:
the keys of present recommendation lists, then the ground-truth pairs with
no matching list. -/
def resultKeys (recs : List RecRow) (test : List TruthRow) : List (String × String) :=
  recListKeys recs ++
    (allPairs recs test).filter (fun k => !((recListKeys recs).contains k))

/-- Modelled from the spec: one row of lenskit
topn.RecListAnalysis.compute(recs, test, include_missing=True).  For a key
with a recommendation list, the metric and bookkeeping values are those the
external metric functions produce (oracle m).  For a ground-truth pair with
no matching list, the spec fixes that the row is present with its metric
values missing before the fill step; what compute leaves in the bookkeeping
columns of such a row is not pinned down by the spec, so it is abstracted
by the oracle mb. -/
def rlaComputeRow (m : String × String → MetricVals)
    (mb : String × String → Option ℚ × Option ℚ)
    (recs : List RecRow) (k : String × String) : RawMetricRow :=
  { algorithm := k.1, user := k.2,
    nrecs := if (recListKeys recs).contains k then some (m k).nrecs else (mb k).1,
    ntruth := if (recListKeys recs).contains k then some (m k).ntruth else (mb k).2,
    precision := if (recListKeys recs).contains k then some (m k).precision else none,
    recip_rank := if (recListKeys recs).contains k then some (m k).recip_rank else none,
    ndcg := if (recListKeys recs).contains k then some (m k).ndcg else none }

/-- Modelled from the spec: lenskit rla.compute with include_missing=True,
one row per result key. -/
def rlaCompute (m : String × String → MetricVals)
    (mb : String × String → Option ℚ × Option ℚ)
    (recs : List RecRow) (test : List TruthRow) : List RawMetricRow :=
  (resultKeys recs test).map (rlaComputeRow m mb recs)

/-- results.fillna(0): every missing value in every column becomes 0. -/
def fillna0 (rows : List RawMetricRow) : List MetricRow :=
  rows.map (fun r =>
    { algorithm := r.algorithm, user := r.user, nrecs := r.nrecs.getD 0,
      ntruth := r.ntruth.getD 0, precision := r.precision.getD 0,
      recip_rank := r.recip_rank.getD 0, ndcg := r.ndcg.getD 0 })

/-- A recommendation table with a single list, for algorithm als and user
u1. -/
def recsMiss : List RecRow :=
  [ { user := "u1", item := "i1", score := 1, dataset := "ml100k", algorithm := "als" } ]

/-- A ground-truth table for a different user u2, so that the pair
(als, u2) has ground truth but no recommendation list. -/
def testMiss : List TruthRow :=
  [ { user := "u2", item := "i2", rating := 4 } ]

/-- A constant stand-in for the external metric functions. -/
def mOracle0 : String × String → MetricVals :=
  fun _ => { nrecs := 10, ntruth := 1, precision := 1, recip_rank := 1, ndcg := 1 }

/-- A constant stand-in for the unspecified bookkeeping fill of missing
rows. -/
def mbOracle0 : String × String → Option ℚ × Option ℚ :=
  fun _ => (none, none)

/-- The pair list hard-coded in the post-hoc cells, written out: the six
unordered index pairs over range 4 in lexicographic order. -/
theorem n_compare_precision_eq :
    n_compare_precision = [(0, 1), (0, 2), (0, 3), (1, 2), (1, 3), (2, 3)] := by decide

/-- The adjusted threshold used by the precision wilcox_bonf is 0.05/6. -/
theorem new_alpha_precision :
    (0.05 : ℚ) / (n_compare_precision.length : ℚ) = 1/120 := by
  rw [n_compare_precision_eq]
  norm_num

/-- Evaluation of the precision wilcox_bonf when the raw p-value exceeds the
adjusted threshold. -/
theorem wilcox_bonf_precision_same (wilcoxon : List ℚ → List ℚ → ℚ × ℚ)
    (d1 d2 : List ℚ) (pr : String × String)
    (h : (wilcoxon d1 d2).2 > 1/120) :
    wilcox_bonf_precision wilcoxon d1 d2 pr =
      { Pair := pr, Statistics := (wilcoxon d1 d2).1, p_value := (wilcoxon d1 d2).2,
        Decision := decisionSame } := by
  simp only [wilcox_bonf_precision]
  rw [new_alpha_precision, if_pos h]

/-- Evaluation of the precision wilcox_bonf when the raw p-value does not
exceed the adjusted threshold. -/
theorem wilcox_bonf_precision_different (wilcoxon : List ℚ → List ℚ → ℚ × ℚ)
    (d1 d2 : List ℚ) (pr : String × String)
    (h : ¬ (wilcoxon d1 d2).2 > 1/120) :
    wilcox_bonf_precision wilcoxon d1 d2 pr =
      { Pair := pr, Statistics := (wilcoxon d1 d2).1, p_value := (wilcoxon d1 d2).2,
        Decision := decisionDifferent } := by
  simp only [wilcox_bonf_precision]
  rw [new_alpha_precision, if_neg h]

/-- Evaluation of the precision wilcox_bonf under the constant oracle
wOracleHalf: every pairwise test reports statistic 2, p-value 1/2, and the
"same" decision, since 1/2 exceeds the adjusted threshold. -/
theorem wilcox_half_eval (d1 d2 : List ℚ) (pr : String × String) :
    wilcox_bonf_precision wOracleHalf d1 d2 pr
      = { Pair := pr, Statistics := 2, p_value := 1/2, Decision := decisionSame } :=
  wilcox_bonf_precision_same _ _ _ _ (by norm_num [wOracleHalf])

/-- friedmanCall raises IndexError exactly when fewer than four
per-algorithm vectors were built. -/
theorem friedmanCall_error_iff
    (fr : List ℚ → List ℚ → List ℚ → List ℚ → ℚ × ℚ) (vals : List (List ℚ)) :
    friedmanCall fr vals = Except.error PyError.indexError ↔ vals.length < 4 := by
  rcases vals with _ | ⟨a, _ | ⟨b, _ | ⟨c, _ | ⟨d, rest⟩⟩⟩⟩ <;>
    simp [friedmanCall]

/-- Claim C10: the three per-metric redefinitions of wilcox_bonf (precision,
ndcg, recip_rank sections) are extensionally equal: applied to the same
external wilcoxon routine, the same two score vectors and the same pair
label, each returns the same (Pair, Statistics, p_value, Decision) record. -/
theorem wilcox_bonf_sections_extensionally_equal
    (wilcoxon : List ℚ → List ℚ → ℚ × ℚ) (data1 data2 : List ℚ)
    (alg_pair : String × String) :
    wilcox_bonf_precision wilcoxon data1 data2 alg_pair
        = wilcox_bonf_ndcg wilcoxon data1 data2 alg_pair
      ∧ wilcox_bonf_ndcg wilcoxon data1 data2 alg_pair
        = wilcox_bonf_recip_rank wilcoxon data1 data2 alg_pair :=
  ⟨rfl, rfl⟩

/-- Claim C3 counterexample: when the raw Wilcoxon p-value equals the
adjusted threshold 0.05/6 exactly, the code decides "different", although
the p-value is not strictly below the adjusted threshold, so the claimed
"different iff p_value < 0.05/m" fails at this input. -/
theorem bonferroni_strict_threshold_counterexample :
    (wilcox_bonf_precision (fun _ _ => (7, 1/120)) [] [] (("A"), ("B"))).Decision
        = decisionDifferent
      ∧ ¬ ((1 : ℚ)/120 < 0.05 / (n_compare_precision.length : ℚ)) := by
  constructor
  · rw [wilcox_bonf_precision_different _ _ _ _ (by norm_num)]
  · rw [new_alpha_precision]
    norm_num

/-- Claim C3 (amended): with m = 6 pairwise comparisons, the adjusted
threshold is 0.05/m, and the decision is "different" if and only if the raw
Wilcoxon p-value is less than OR EQUAL TO the adjusted threshold (the code
tests p > new_alpha for the "same" branch, so equality rejects). -/
theorem bonferroni_decision_iff
    (wilcoxon : List ℚ → List ℚ → ℚ × ℚ) (data1 data2 : List ℚ)
    (alg_pair : String × String) :
    n_compare_precision.length = 6
      ∧ ((wilcox_bonf_precision wilcoxon data1 data2 alg_pair).Decision = decisionDifferent
          ↔ (wilcoxon data1 data2).2 ≤ 0.05 / (n_compare_precision.length : ℚ)) := by
  refine ⟨by decide, ?_⟩
  rw [new_alpha_precision]
  by_cases h : (wilcoxon data1 data2).2 > 1/120
  · rw [wilcox_bonf_precision_same _ _ _ _ h]
    exact iff_of_false (by simp [decisionSame, decisionDifferent]) (not_le.mpr h)
  · rw [wilcox_bonf_precision_different _ _ _ _ h]
    exact iff_of_true rfl (not_lt.mp h)

/-- Claim C1 (code bug): the notebook text says post-hoc tests are only
performed when the Friedman result is significant, but the post-hoc cell
runs unconditionally.  Here the omnibus p-value is 1/2, which is not below
0.05, yet all six pairwise Wilcoxon tests are still executed and reported. -/
theorem posthoc_runs_despite_insignificant_omnibus :
    (metricSection frOracleHalf wOracleHalf rows4 (fun r => r.precision)).1
        = Except.ok (3, 1/2)
      ∧ ¬ ((1 : ℚ)/2 < 0.05)
      ∧ (metricSection frOracleHalf wOracleHalf rows4 (fun r => r.precision)).2
        = Except.ok
            [ { Pair := (("als"), ("iknn")), Statistics := 2, p_value := 1/2,
                Decision := decisionSame },
              { Pair := (("als"), ("popular")), Statistics := 2, p_value := 1/2,
                Decision := decisionSame },
              { Pair := (("als"), ("uknn")), Statistics := 2, p_value := 1/2,
                Decision := decisionSame },
              { Pair := (("iknn"), ("popular")), Statistics := 2, p_value := 1/2,
                Decision := decisionSame },
              { Pair := (("iknn"), ("uknn")), Statistics := 2, p_value := 1/2,
                Decision := decisionSame },
              { Pair := (("popular"), ("uknn")), Statistics := 2, p_value := 1/2,
                Decision := decisionSame } ] := by
  refine ⟨rfl, by norm_num, ?_⟩
  have hnames : algNames rows4 = [("als"), ("iknn"), ("popular"), ("uknn")] := by decide
  have e : (metricSection frOracleHalf wOracleHalf rows4 (fun r => r.precision)).2
      = posthocFor wOracleHalf [("als"), ("iknn"), ("popular"), ("uknn")]
          (algVals rows4 (fun r => r.precision)) n_compare_precision := by
    show posthocLoop wOracleHalf (algNames rows4) (algVals rows4 (fun r => r.precision)) = _
    rw [posthocLoop, hnames]
  rw [e, algVals, hnames, n_compare_precision_eq]
  simp only [List.map, posthocFor, List.getElem?_cons_zero, List.getElem?_cons_succ,
    wilcox_half_eval]

/-- Claim C7 (amended): the omnibus cell indexes exactly the first four
per-algorithm vectors, so it raises a plain IndexError precisely when fewer
than four algorithms are present in the results table; there is no
InsufficientGroupsError and k = 3 is not accepted. -/
theorem friedman_errors_iff_fewer_than_four_algorithms
    (fr : List ℚ → List ℚ → List ℚ → List ℚ → ℚ × ℚ)
    (w : List ℚ → List ℚ → ℚ × ℚ)
    (rows : List MetricRow) (col : MetricRow → ℚ) :
    (metricSection fr w rows col).1 = Except.error PyError.indexError
      ↔ (algNames rows).length < 4 := by
  have e : (metricSection fr w rows col).1 = friedmanCall fr (algVals rows col) := rfl
  rw [e, friedmanCall_error_iff]
  simp [algVals]

/-- Claim C7 counterexample: with exactly three algorithms present the
omnibus cell raises IndexError instead of running the test on k = 3 groups
as the claim requires. -/
theorem friedman_three_groups_counterexample :
    (algNames rows3).length = 3
      ∧ (metricSection frOracleHalf wOracleHalf rows3 (fun r => r.precision)).1
          = Except.error PyError.indexError :=
  ⟨by decide, rfl⟩

/-- Claim C8 (amended): with fewer than two algorithms present, the
significance cells do not complete as a no-op: both the omnibus call and
the post-hoc loop raise IndexError, crashing the run. -/
theorem fewer_than_two_algorithms_crash
    (fr : List ℚ → List ℚ → List ℚ → List ℚ → ℚ × ℚ)
    (w : List ℚ → List ℚ → ℚ × ℚ)
    (rows : List MetricRow) (col : MetricRow → ℚ)
    (h : (algNames rows).length < 2) :
    (metricSection fr w rows col).1 = Except.error PyError.indexError
      ∧ (metricSection fr w rows col).2 = Except.error PyError.indexError := by
  rcases hn : algNames rows with _ | ⟨x, _ | ⟨y, ys⟩⟩
  · constructor <;>
      simp [metricSection, algVals, hn, friedmanCall, posthocLoop, posthocFor,
        n_compare_precision_eq]
  · constructor <;>
      simp [metricSection, algVals, hn, friedmanCall, posthocLoop, posthocFor,
        n_compare_precision_eq, groupVals]
  · rw [hn] at h
    simp at h
    omega

/-- Witness for the C8 theorem at a concrete one-algorithm table. -/
theorem fewer_than_two_algorithms_crash_witness :
    (algNames rows1).length < 2
      ∧ (metricSection frOracleHalf wOracleHalf rows1 (fun r => r.precision)).1
          = Except.error PyError.indexError
      ∧ (metricSection frOracleHalf wOracleHalf rows1 (fun r => r.precision)).2
          = Except.error PyError.indexError :=
  ⟨by decide,
    (fewer_than_two_algorithms_crash frOracleHalf wOracleHalf rows1 (fun r => r.precision)
      (by decide)).1,
    (fewer_than_two_algorithms_crash frOracleHalf wOracleHalf rows1 (fun r => r.precision)
      (by decide)).2⟩

/-- Claim C8 counterexample: with a single algorithm present the
significance stage raises IndexError rather than completing as a no-op. -/
theorem single_algorithm_crash_counterexample :
    (algNames rows1).length = 1
      ∧ (metricSection frOracleHalf wOracleHalf rows1 (fun r => r.precision)).2
          = Except.error PyError.indexError :=
  ⟨by decide, rfl⟩

/-- Claim C4 (amended): the pair list is hard-coded to indices 0..3, so when
exactly four algorithms are present the post-hoc step enumerates all
C(4,2) = 6 unordered pairs of them, in lexicographic index order, and
outputs one result per pair in that enumeration order; for other algorithm
counts the hard-coded list does not adapt. -/
theorem posthoc_enumerates_all_pairs_of_four
    (fr : List ℚ → List ℚ → List ℚ → List ℚ → ℚ × ℚ)
    (w : List ℚ → List ℚ → ℚ × ℚ)
    (rows : List MetricRow) (col : MetricRow → ℚ)
    (a b c d : String)
    (h : algNames rows = [a, b, c, d]) :
    n_compare_precision.length = Nat.choose 4 2
      ∧ (metricSection fr w rows col).2
        = Except.ok
            [ wilcox_bonf_precision w (groupVals rows col a) (groupVals rows col b) ((a), (b)),
              wilcox_bonf_precision w (groupVals rows col a) (groupVals rows col c) ((a), (c)),
              wilcox_bonf_precision w (groupVals rows col a) (groupVals rows col d) ((a), (d)),
              wilcox_bonf_precision w (groupVals rows col b) (groupVals rows col c) ((b), (c)),
              wilcox_bonf_precision w (groupVals rows col b) (groupVals rows col d) ((b), (d)),
              wilcox_bonf_precision w (groupVals rows col c) (groupVals rows col d) ((c), (d)) ] := by
  refine ⟨by decide, ?_⟩
  have e : (metricSection fr w rows col).2
      = posthocFor w [a, b, c, d]
          [groupVals rows col a, groupVals rows col b, groupVals rows col c, groupVals rows col d]
          n_compare_precision := by
    show posthocLoop w (algNames rows) (algVals rows col) = _
    rw [posthocLoop, algVals, h]
    rfl
  rw [e, n_compare_precision_eq]
  rfl

/-- Witness for the C4 theorem at a concrete four-algorithm table. -/
theorem posthoc_enumerates_all_pairs_of_four_witness :
    algNames rows4 = [("als"), ("iknn"), ("popular"), ("uknn")]
      ∧ (n_compare_precision.length = Nat.choose 4 2
        ∧ (metricSection frOracleHalf wOracleHalf rows4 (fun r => r.precision)).2
          = Except.ok
              [ wilcox_bonf_precision wOracleHalf
                  (groupVals rows4 (fun r => r.precision) (("als")))
                  (groupVals rows4 (fun r => r.precision) (("iknn"))) ((("als")), (("iknn"))),
                wilcox_bonf_precision wOracleHalf
                  (groupVals rows4 (fun r => r.precision) (("als")))
                  (groupVals rows4 (fun r => r.precision) (("popular"))) ((("als")), (("popular"))),
                wilcox_bonf_precision wOracleHalf
                  (groupVals rows4 (fun r => r.precision) (("als")))
                  (groupVals rows4 (fun r => r.precision) (("uknn"))) ((("als")), (("uknn"))),
                wilcox_bonf_precision wOracleHalf
                  (groupVals rows4 (fun r => r.precision) (("iknn")))
                  (groupVals rows4 (fun r => r.precision) (("popular"))) ((("iknn")), (("popular"))),
                wilcox_bonf_precision wOracleHalf
                  (groupVals rows4 (fun r => r.precision) (("iknn")))
                  (groupVals rows4 (fun r => r.precision) (("uknn"))) ((("iknn")), (("uknn"))),
                wilcox_bonf_precision wOracleHalf
                  (groupVals rows4 (fun r => r.precision) (("popular")))
                  (groupVals rows4 (fun r => r.precision) (("uknn"))) ((("popular")), (("uknn"))) ]) :=
  ⟨by decide,
    posthoc_enumerates_all_pairs_of_four frOracleHalf wOracleHalf rows4 (fun r => r.precision)
      (("als")) (("iknn")) (("popular")) (("uknn")) (by decide)⟩

/-- Claim C4 counterexample: with five algorithms present the post-hoc step
still enumerates only the six hard-coded pairs over indices 0..3 — not the
C(5,2) = 10 pairs of the algorithms present — and the fifth algorithm
participates in no comparison. -/
theorem posthoc_five_algorithms_counterexample :
    (algNames rows5).length = 5
      ∧ Nat.choose 5 2 = 10
      ∧ n_compare_precision.length ≠ Nat.choose 5 2
      ∧ (metricSection frOracleHalf wOracleHalf rows5 (fun r => r.precision)).2
        = Except.ok
            [ { Pair := (("als"), ("iknn")), Statistics := 2, p_value := 1/2,
                Decision := decisionSame },
              { Pair := (("als"), ("popular")), Statistics := 2, p_value := 1/2,
                Decision := decisionSame },
              { Pair := (("als"), ("uknn")), Statistics := 2, p_value := 1/2,
                Decision := decisionSame },
              { Pair := (("iknn"), ("popular")), Statistics := 2, p_value := 1/2,
                Decision := decisionSame },
              { Pair := (("iknn"), ("uknn")), Statistics := 2, p_value := 1/2,
                Decision := decisionSame },
              { Pair := (("popular"), ("uknn")), Statistics := 2, p_value := 1/2,
                Decision := decisionSame } ] := by
  refine ⟨by decide, by decide, by decide, ?_⟩
  have hnames : algNames rows5 = [("als"), ("iknn"), ("popular"), ("uknn"), ("vknn")] := by
    decide
  have e : (metricSection frOracleHalf wOracleHalf rows5 (fun r => r.precision)).2
      = posthocFor wOracleHalf [("als"), ("iknn"), ("popular"), ("uknn"), ("vknn")]
          (algVals rows5 (fun r => r.precision)) n_compare_precision := by
    show posthocLoop wOracleHalf (algNames rows5) (algVals rows5 (fun r => r.precision)) = _
    rw [posthocLoop, hnames]
  rw [e, algVals, hnames, n_compare_precision_eq]
  simp only [List.map, posthocFor, List.getElem?_cons_zero, List.getElem?_cons_succ,
    wilcox_half_eval]

/-- The collected table list is empty exactly when no matched directory
contains any file matching the recs pattern. -/
theorem recTables_isEmpty_iff (dataset : String) (output_root : List OutDirectory) :
    (recTables dataset output_root).isEmpty = true
      ↔ ∀ fld ∈ matchedDirs dataset output_root, fld.recFiles = [] := by
  simp [recTables, List.isEmpty_iff, List.flatMap_eq_nil_iff, List.map_eq_nil_iff]

/-- Claim C6 (amended): the loader fails — with the pandas ValueError from
concatenating an empty list, not a dedicated LoadError — precisely when NO
matched directory contains any file matching the recs pattern (which covers
the case of no matching output directories at all).  A matched directory
with zero matching files alongside others that have files is silently
skipped, and no column-schema validation happens at load time. -/
theorem loadRecs_error_iff (dataset : String) (output_root : List OutDirectory) :
    loadRecs dataset output_root = Except.error LoadError.noObjectsToConcatenate
      ↔ ∀ fld ∈ matchedDirs dataset output_root, fld.recFiles = [] := by
  rw [loadRecs]
  split
  next h => exact iff_of_true rfl ((recTables_isEmpty_iff dataset output_root).mp h)
  next h =>
    exact iff_of_false (by simp)
      (fun hp => h ((recTables_isEmpty_iff dataset output_root).mpr hp))

/-- Claim C6 counterexample: a matched directory with zero files matching
the recommendation pattern does not abort the load when another matched
directory has a file — the loader succeeds, contradicting the claimed
LoadError for any matched directory with zero matching files. -/
theorem loader_skips_empty_directory_counterexample :
    dirEmpty ∈ matchedDirs ("ml100k") rootSkip
      ∧ dirEmpty.recFiles = []
      ∧ loadRecs ("ml100k") rootSkip
        = Except.ok [ { user := "u1", item := "i1", score := 1,
                        dataset := "ml100k", algorithm := "als" } ] := by
  refine ⟨by decide, rfl, rfl⟩

/-- Under the hypothesis that every prediction row's (user, item) pair has
a ground-truth entry whose rating equals the stored rating, the join with
the ground-truth table leaves the prediction table unchanged. -/
theorem joinPreds_eq_of_matching (test : List TruthRow) :
    ∀ preds : List PredRow,
      (∀ p ∈ preds, truthRating test p.user p.item = some p.rating) →
      joinPreds preds test = preds
  | [], _ => rfl
  | p :: ps, h => by
    have hp : truthRating test p.user p.item = some p.rating := h p (by simp)
    have ih := joinPreds_eq_of_matching test ps
      (fun q hq => h q (List.mem_cons_of_mem p hq))
    simp only [joinPreds] at ih ⊢
    rw [List.filterMap_cons, hp]
    simp [ih]

/-- Claim C5 (amended): the per-user RMSE cell computes, for each
(algorithm, user) group, rmse over the prediction column and the rating
column of the prediction table ITSELF (the ratings as read from the pred-*
files); the ground-truth table is never consulted.  It coincides with the
join-based computation the spec describes precisely on inputs where every
prediction row's stored rating equals the held-out ground-truth rating for
its (user, item). -/
theorem user_rmse_from_predictions_only
    (rmse : List ℚ → List ℚ → ℚ) (preds : List PredRow) (test : List TruthRow)
    (h : ∀ p ∈ preds, truthRating test p.user p.item = some p.rating) :
    user_rmse_spec rmse preds test = user_rmse rmse preds := by
  rw [user_rmse_spec, joinPreds_eq_of_matching test preds h]

/-- Witness for the C5 theorem on a concrete agreeing table. -/
theorem user_rmse_from_predictions_only_witness :
    user_rmse_spec sumSqErr predsGood truthGood = user_rmse sumSqErr predsGood :=
  user_rmse_from_predictions_only sumSqErr predsGood truthGood (by decide)

/-- Claim C5 counterexample: with a stored rating of 3 but a held-out
ground-truth rating of 5 for the same user and item, the rendered value is
the one computed from the prediction table alone (squared error 0), not the
join-based value the claim describes (squared error 4). -/
theorem user_rmse_ignores_ground_truth_counterexample :
    user_rmse sumSqErr predsBad = [((("als"), ("u1")), 0)]
      ∧ user_rmse_spec sumSqErr predsBad truthBad = [((("als"), ("u1")), 4)]
      ∧ (0 : ℚ) ≠ 4 := by
  refine ⟨?_, ?_, by norm_num⟩
  · simp [user_rmse, sortedPairKeys, insertPairKey, predsBad, sumSqErr]
  · simp [user_rmse_spec, joinPreds, truthRating, predsBad, truthBad, user_rmse,
      sortedPairKeys, insertPairKey, sumSqErr]
    norm_num

/-- A filter by a predicate that characterises a single key keeps exactly
one element of a duplicate-free list containing that key. -/
theorem filter_key_length_one {α : Type} [DecidableEq α] {l : List α} {k : α}
    {p : α → Bool} (hp : ∀ x, p x = true ↔ x = k) (hn : l.Nodup) (hm : k ∈ l) :
    (l.filter p).length = 1 := by
  induction l with
  | nil => cases hm
  | cons x xs ih =>
    rw [List.nodup_cons] at hn
    rcases List.mem_cons.mp hm with rfl | hmx
    · rw [List.filter_cons_of_pos ((hp k).mpr rfl)]
      have hnil : xs.filter p = [] := by
        rw [List.filter_eq_nil_iff]
        intro y hy hpy
        exact hn.1 ((hp y).mp hpy ▸ hy)
      rw [hnil]
      rfl
    · have hx : ¬ p x = true := by
        intro hpx
        exact hn.1 (by rw [← (hp x).mp hpx] at hmx; exact hmx)
      rw [List.filter_cons_of_neg hx]
      exact ih hn.2 hmx

/-- The result keys of the modelled rla.compute are duplicate-free. -/
theorem resultKeys_nodup (recs : List RecRow) (test : List TruthRow) :
    (resultKeys recs test).Nodup := by
  refine List.Nodup.append (List.nodup_dedup _) (List.Nodup.filter _ ?_) ?_
  · exact List.Nodup.product (List.nodup_dedup _) (List.nodup_dedup _)
  · rw [List.disjoint_left]
    intro k hk1 hk2
    have h2 := (List.mem_filter.mp hk2).2
    simp [List.elem_iff] at h2
    exact h2 hk1

/-- Claim C2 (spec-modelled): every (algorithm, user) pair whose algorithm
appears in the recommendations and whose user appears in the ground truth
but which has no matching recommendation list receives exactly one row of
the filled results table, and that row's precision, recip_rank and ndcg
values are all 0 — the pair is neither dropped nor left missing, so the
per-algorithm score vectors stay aligned over the same users. -/
theorem missing_pair_single_zero_row
    (m : String × String → MetricVals) (mb : String × String → Option ℚ × Option ℚ)
    (recs : List RecRow) (test : List TruthRow) (a u : String)
    (ha : a ∈ algorithmsOf recs) (hu : u ∈ truthUsers test)
    (hmiss : (a, u) ∉ recListKeys recs) :
    ((fillna0 (rlaCompute m mb recs test)).filter
        (fun r => r.algorithm == a && r.user == u)).length = 1
      ∧ ∀ r ∈ fillna0 (rlaCompute m mb recs test),
          r.algorithm = a → r.user = u →
            r.precision = 0 ∧ r.recip_rank = 0 ∧ r.ndcg = 0 := by
  have hmem : (a, u) ∈ resultKeys recs test := by
    rw [resultKeys, List.mem_append]
    right
    rw [List.mem_filter]
    refine ⟨List.mem_product.mpr ⟨ha, hu⟩, ?_⟩
    simp [List.elem_iff, hmiss]
  constructor
  · rw [rlaCompute, fillna0, List.map_map, List.filter_map, List.length_map]
    show ((resultKeys recs test).filter (fun k => k.1 == a && k.2 == u)).length = 1
    refine filter_key_length_one ?_ (resultKeys_nodup recs test) hmem
    intro x
    simp [Bool.and_eq_true, Prod.ext_iff]
  · intro r hr hra hru
    rw [rlaCompute, fillna0, List.map_map] at hr
    rcases List.mem_map.mp hr with ⟨k, hk, rfl⟩
    have hk1 : k.1 = a := hra
    have hk2 : k.2 = u := hru
    have hkau : k = (a, u) := by rw [← hk1, ← hk2]
    subst hkau
    refine ⟨?_, ?_, ?_⟩ <;> simp [Function.comp, rlaComputeRow, hmiss]

/-- Witness for the C2 theorem on a concrete table: algorithm als has a
recommendation list only for user u1, the ground truth mentions only user
u2, and the filled results table carries exactly one row for (als, u2). -/
theorem missing_pair_single_zero_row_witness :
    ((fillna0 (rlaCompute mOracle0 mbOracle0 recsMiss testMiss)).filter
        (fun r => r.algorithm == ("als") && r.user == ("u2"))).length = 1 :=
  (missing_pair_single_zero_row mOracle0 mbOracle0 recsMiss testMiss ("als") ("u2")
    (by decide) (by decide) (by decide)).1

end EvalReport
